import Mathlib

/-
Verification of the portfolio-simulation core of the BFI website
(src/scripts/portfolio.js and the shared math utilities).

Modelling conventions:
* JavaScript numbers are idealised as exact real numbers extended with the
  IEEE special values NaN, +Infinity and -Infinity, captured by the type
  `JSNum` below.  Rounding and overflow of binary doubles are abstracted
  away; signed zeros are identified with 0 (no computation in scope
  distinguishes them, see comments at the division operation).
* Quantities that provably stay finite in the source (the running portfolio
  value, the running peak, the per-year weighted returns, the volatility)
  are modelled directly as real numbers; quantities that can become NaN or
  Infinity through a division by zero (drawdown, totalReturn, cagr, sharpe)
  are modelled as `JSNum`.
-/

open Classical

/-- A JavaScript number: a finite real, NaN, or a signed infinity. -/
inductive JSNum where
  | nan : JSNum
  | posInf : JSNum
  | negInf : JSNum
  | num : ℝ → JSNum

namespace JSNum

/-- JS addition (`a + b`). -/
noncomputable def add : JSNum → JSNum → JSNum
  | nan, _ => nan
  | _, nan => nan
  | posInf, negInf => nan
  | negInf, posInf => nan
  | posInf, _ => posInf
  | _, posInf => posInf
  | negInf, _ => negInf
  | _, negInf => negInf
  | num a, num b => num (a + b)

/-- JS subtraction (`a - b`). -/
noncomputable def sub : JSNum → JSNum → JSNum
  | nan, _ => nan
  | _, nan => nan
  | posInf, posInf => nan
  | posInf, _ => posInf
  | negInf, negInf => nan
  | negInf, _ => negInf
  | num _, posInf => negInf
  | num _, negInf => posInf
  | num a, num b => num (a - b)

/-- JS multiplication (`a * b`). -/
noncomputable def mul : JSNum → JSNum → JSNum
  | nan, _ => nan
  | _, nan => nan
  | posInf, posInf => posInf
  | posInf, negInf => negInf
  | negInf, posInf => negInf
  | negInf, negInf => posInf
  | posInf, num b => if b = 0 then nan else if 0 < b then posInf else negInf
  | num a, posInf => if a = 0 then nan else if 0 < a then posInf else negInf
  | negInf, num b => if b = 0 then nan else if 0 < b then negInf else posInf
  | num a, negInf => if a = 0 then nan else if 0 < a then negInf else posInf
  | num a, num b => num (a * b)

/-- JS division (`a / b`).  `0 / 0 = NaN`; a nonzero finite numerator over
zero gives a signed infinity (the sign of the IEEE zero divisor is ignored:
the zeros reaching this operation in the modelled code are `+0`). -/
noncomputable def div : JSNum → JSNum → JSNum
  | nan, _ => nan
  | _, nan => nan
  | posInf, posInf => nan
  | posInf, negInf => nan
  | negInf, posInf => nan
  | negInf, negInf => nan
  | posInf, num b => if 0 ≤ b then posInf else negInf
  | negInf, num b => if 0 ≤ b then negInf else posInf
  | num _, posInf => num 0
  | num _, negInf => num 0
  | num a, num b =>
      if b = 0 then (if a = 0 then nan else if 0 < a then posInf else negInf)
      else num (a / b)

/-- JS strict comparison `a < b`; every comparison with NaN is false. -/
def ltP : JSNum → JSNum → Prop
  | nan, _ => False
  | _, nan => False
  | negInf, negInf => False
  | negInf, _ => True
  | _, negInf => False
  | posInf, _ => False
  | num _, posInf => True
  | num a, num b => a < b

/-- `Math.sqrt`: NaN on NaN and on negative inputs (including -Infinity). -/
noncomputable def sqrt : JSNum → JSNum
  | nan => nan
  | posInf => posInf
  | negInf => nan
  | num x => if x < 0 then nan else num (Real.sqrt x)

/-- `Math.pow(x, 2)`, as applied to the deviations in the volatility helper. -/
noncomputable def sq : JSNum → JSNum
  | nan => nan
  | posInf => posInf
  | negInf => posInf
  | num x => num (x ^ 2)

end JSNum

/-- `Math.pow(a, b)` on finite arguments: `0 ^ negative = Infinity`; a
nonnegative base follows the real power `Real.rpow`; a negative base gives
NaN unless the exponent is an integer, where JS agrees with the integer
power (and so with `Real.rpow` at integer arguments). -/
noncomputable def jsPow (a b : ℝ) : JSNum :=
  if a = 0 ∧ b < 0 then .posInf
  else if 0 ≤ a then .num (Real.rpow a b)
  else if ∃ n : ℤ, (n : ℝ) = b then .num (Real.rpow a b)
  else .nan

/-- `portfolioCalc.historicalReturns.stocks` (portfolio.js lines 23-26). -/
noncomputable def stocksTable (y : ℤ) : Option ℝ :=
  if y = 2014 then some 13.7 else if y = 2015 then some 1.4
  else if y = 2016 then some 12.0 else if y = 2017 then some 21.8
  else if y = 2018 then some (-4.4) else if y = 2019 then some 31.5
  else if y = 2020 then some 18.4 else if y = 2021 then some 28.7
  else if y = 2022 then some (-18.1) else if y = 2023 then some 26.3
  else if y = 2024 then some 25.0 else none

/-- `portfolioCalc.historicalReturns.bonds` (portfolio.js lines 27-30). -/
noncomputable def bondsTable (y : ℤ) : Option ℝ :=
  if y = 2014 then some 6.0 else if y = 2015 then some 0.5
  else if y = 2016 then some 2.6 else if y = 2017 then some 3.5
  else if y = 2018 then some 0.0 else if y = 2019 then some 8.7
  else if y = 2020 then some 7.5 else if y = 2021 then some (-1.5)
  else if y = 2022 then some (-13.0) else if y = 2023 then some 5.5
  else if y = 2024 then some 1.2 else none

/-- `portfolioCalc.historicalReturns.bitcoin` (portfolio.js lines 31-34). -/
noncomputable def bitcoinTable (y : ℤ) : Option ℝ :=
  if y = 2014 then some (-58) else if y = 2015 then some 35
  else if y = 2016 then some 125 else if y = 2017 then some 1318
  else if y = 2018 then some (-73) else if y = 2019 then some 95
  else if y = 2020 then some 301 else if y = 2021 then some 60
  else if y = 2022 then some (-65) else if y = 2023 then some 155
  else if y = 2024 then some 120 else none

/-- `stocks[year] ?? stocks[2024]` (portfolio.js line 210); the inner
`getD 0` merely strips the `Option` from the always-present 2024 entry. -/
noncomputable def stockRet (y : ℤ) : ℝ := (stocksTable y).getD ((stocksTable 2024).getD 0)

/-- `bonds[year] ?? bonds[2024]` (portfolio.js line 211). -/
noncomputable def bondRet (y : ℤ) : ℝ := (bondsTable y).getD ((bondsTable 2024).getD 0)

/-- `bitcoin[year] ?? bitcoin[2024]` (portfolio.js line 212). -/
noncomputable def btcRet (y : ℤ) : ℝ := (bitcoinTable y).getD ((bitcoinTable 2024).getD 0)

/-- The weighted portfolio return of one year (portfolio.js lines 215-217). -/
noncomputable def weightedReturn (stockPct bondPct btcPct : ℝ) (year : ℤ) : ℝ :=
  stockPct / 100 * stockRet year + bondPct / 100 * bondRet year + btcPct / 100 * btcRet year

/-- The mutable locals of `simulatePortfolio` together with the three
result arrays filled by the loop. -/
structure SimState where
  value : ℝ
  peak : ℝ
  maxDrawdown : JSNum
  yearsList : List ℤ
  valuesList : List ℝ
  returnsList : List ℝ

/-- One iteration of the `for` loop of `simulatePortfolio`
(portfolio.js lines 206-228). -/
noncomputable def simStep (stockPct bondPct btcPct : ℝ) (startYear : ℤ)
    (s : SimState) (i : ℕ) : SimState :=
  let year : ℤ := startYear + i
  let portfolioReturn := weightedReturn stockPct bondPct btcPct year
  let value := s.value * (1 + portfolioReturn / 100)
  let peak := if s.peak < value then value else s.peak
  let drawdown := JSNum.mul (JSNum.div (.num (peak - value)) (.num peak)) (.num 100)
  { value := value
    peak := peak
    maxDrawdown := if JSNum.ltP s.maxDrawdown drawdown then drawdown else s.maxDrawdown
    yearsList := s.yearsList ++ [year]
    valuesList := s.valuesList ++ [value]
    returnsList := s.returnsList ++ [portfolioReturn] }

/-- The fields of the `results` object of `simulatePortfolio`. -/
structure SimResult where
  years : List ℤ
  values : List ℝ
  returns : List ℝ
  finalValue : ℝ
  totalReturn : JSNum
  cagr : JSNum
  volatility : ℝ
  maxDrawdown : JSNum
  sharpe : JSNum

/-- `calculateStdDev` (portfolio.js lines 243-248): population standard
deviation with an explicit empty-input guard.  (The `!arr` null check of the
source is a type-level concern with no counterpart for a `List` input.)
`Math.pow(x - mean, 2)` on finite reals is the square. -/
noncomputable def calculateStdDev (arr : List ℝ) : ℝ :=
  if arr.length = 0 then 0
  else
    let mean := arr.sum / arr.length
    let squaredDiffs := arr.map fun x => (x - mean) ^ 2
    Real.sqrt (squaredDiffs.sum / arr.length)

/-- `simulatePortfolio` (portfolio.js lines 190-241). -/
noncomputable def simulatePortfolio (initialValue stockPct bondPct btcPct : ℝ)
    (years : ℕ) (startYear : ℤ) : SimResult :=
  let final := (List.range years).foldl (simStep stockPct bondPct btcPct startYear)
    ⟨initialValue, initialValue, .num 0, [], [], []⟩
  let totalReturn :=
    JSNum.mul (JSNum.div (.num (final.value - initialValue)) (.num initialValue)) (.num 100)
  let cagr : JSNum :=
    if 0 < years ∧ 0 < initialValue then
      JSNum.mul (JSNum.sub (jsPow (final.value / initialValue) (1 / (years : ℝ))) (.num 1))
        (.num 100)
    else .num 0
  let volatility := calculateStdDev final.returnsList
  let sharpe : JSNum :=
    if 0 < volatility then JSNum.div (JSNum.sub cagr (.num 2)) (.num volatility)
    else .num 0
  { years := final.yearsList
    values := final.valuesList
    returns := final.returnsList
    finalValue := final.value
    totalReturn := totalReturn
    cagr := cagr
    volatility := volatility
    maxDrawdown := final.maxDrawdown
    sharpe := sharpe }

/-- One iteration of the loop of the shared-utility `calculateMaxDrawdown`
(second source file, `for (const value of values)` body). -/
noncomputable def mdStep (s : ℝ × JSNum) (value : ℝ) : ℝ × JSNum :=
  let peak := if s.1 < value then value else s.1
  let drawdown := JSNum.mul (JSNum.div (.num (peak - value)) (.num peak)) (.num 100)
  (peak, if JSNum.ltP s.2 drawdown then drawdown else s.2)

/-- `calculateMaxDrawdown(values)` from the shared utilities: `peak` starts
at `values[0]` and the loop runs over the whole array (revisiting the first
element); on an empty array the loop body never runs and the initial
`maxDrawdown = 0` is returned (the `undefined` initial peak is never read). -/
noncomputable def calculateMaxDrawdown : List ℝ → JSNum
  | [] => .num 0
  | v :: rest => ((v :: rest).foldl mdStep (v, .num 0)).2

/-- `calculateVolatility(returns)` from the shared utilities: the same
population standard deviation but with no empty-input guard, so on an empty
array both `mean` and `variance` are `0 / 0 = NaN`. -/
noncomputable def calculateVolatility (returns : List ℝ) : JSNum :=
  let mean := JSNum.div (.num returns.sum) (.num returns.length)
  let squaredDiffs := returns.map fun r => JSNum.sq (JSNum.sub (.num r) mean)
  let variance := JSNum.div (squaredDiffs.foldl JSNum.add (.num 0)) (.num returns.length)
  JSNum.sqrt variance

/-! ### Supporting lemmas about the simulation loop -/

lemma simStep_value (e b c : ℝ) (sy : ℤ) (s : SimState) (i : ℕ) :
    (simStep e b c sy s i).value = s.value * (1 + weightedReturn e b c (sy + i) / 100) := rfl

lemma simStep_returnsList (e b c : ℝ) (sy : ℤ) (s : SimState) (i : ℕ) :
    (simStep e b c sy s i).returnsList = s.returnsList ++ [weightedReturn e b c (sy + i)] := rfl

lemma simFold_returnsList (e b c : ℝ) (sy : ℤ) (n : ℕ) (s : SimState) :
    ((List.range n).foldl (simStep e b c sy) s).returnsList
      = s.returnsList ++ (List.range n).map (fun i : ℕ => weightedReturn e b c (sy + (i : ℤ))) := by
  induction n with
  | zero => simp
  | succ k ih =>
    rw [List.range_succ, List.foldl_append, List.map_append]
    simp [List.foldl, simStep_returnsList, ih]

lemma simFold_value_of_zero_alloc (sy : ℤ) (n : ℕ) (s : SimState) :
    ((List.range n).foldl (simStep 0 0 0 sy) s).value = s.value := by
  induction n with
  | zero => rfl
  | succ k ih =>
    rw [List.range_succ, List.foldl_append]
    simp [List.foldl, simStep_value, weightedReturn, ih]

lemma simFold_zero_initial (e b c : ℝ) (sy : ℤ) (n : ℕ) :
    ((List.range n).foldl (simStep e b c sy) ⟨0, 0, .num 0, [], [], []⟩).value = 0 ∧
    ((List.range n).foldl (simStep e b c sy) ⟨0, 0, .num 0, [], [], []⟩).peak = 0 ∧
    ((List.range n).foldl (simStep e b c sy) ⟨0, 0, .num 0, [], [], []⟩).maxDrawdown = .num 0 := by
  induction n with
  | zero => exact ⟨rfl, rfl, rfl⟩
  | succ k ih =>
    obtain ⟨hv, hp, hm⟩ := ih
    rw [List.range_succ, List.foldl_append]
    refine ⟨?_, ?_, ?_⟩ <;>
      norm_num [List.foldl, simStep, hv, hp, hm, JSNum.div, JSNum.mul, JSNum.ltP]

/-! ### Supporting lemmas about the return tables -/

lemma stocksTable_none (y : ℤ) (hy : 2024 < y) : stocksTable y = none := by
  unfold stocksTable
  repeat rw [if_neg (by omega)]

lemma bondsTable_none (y : ℤ) (hy : 2024 < y) : bondsTable y = none := by
  unfold bondsTable
  repeat rw [if_neg (by omega)]

lemma bitcoinTable_none (y : ℤ) (hy : 2024 < y) : bitcoinTable y = none := by
  unfold bitcoinTable
  repeat rw [if_neg (by omega)]

lemma stockRet_gt (y : ℤ) (hy : 2024 < y) : stockRet y = stockRet 2024 := by
  unfold stockRet
  rw [stocksTable_none y hy]
  norm_num [stocksTable]

lemma bondRet_gt (y : ℤ) (hy : 2024 < y) : bondRet y = bondRet 2024 := by
  unfold bondRet
  rw [bondsTable_none y hy]
  norm_num [bondsTable]

lemma btcRet_gt (y : ℤ) (hy : 2024 < y) : btcRet y = btcRet 2024 := by
  unfold btcRet
  rw [bitcoinTable_none y hy]
  norm_num [bitcoinTable]

lemma weightedReturn_zero_alloc (y : ℤ) : weightedReturn 0 0 0 y = 0 := by
  unfold weightedReturn
  norm_num

/-! ### Supporting lemmas about the drawdown scan -/

lemma mdStep_eq_of_le (p b : ℝ) (hpb : p ≤ b) :
    mdStep (p, .num 0) b = (b, .num 0) := by
  have hpeak : (if p < b then b else p) = b := by
    rcases eq_or_lt_of_le hpb with h | h
    · simp [h]
    · simp [h]
  unfold mdStep
  simp only [hpeak]
  have hdd : JSNum.mul (JSNum.div (JSNum.num (b - b)) (JSNum.num b)) (JSNum.num 100) =
      (if b = 0 then JSNum.nan else JSNum.num 0) := by
    by_cases hb : b = 0
    · simp [JSNum.div, JSNum.mul, hb]
    · simp [JSNum.div, JSNum.mul, hb]
  rw [hdd]
  by_cases hb : b = 0
  · simp [hb, JSNum.ltP]
  · simp [hb, JSNum.ltP]

lemma mdFold_chain : ∀ (l : List ℝ) (p : ℝ), List.Chain (· ≤ ·) p l →
    (l.foldl mdStep (p, .num 0)).2 = .num 0 := by
  intro l
  induction l with
  | nil => intro p _; rfl
  | cons b t ih =>
    intro p hpb
    rw [List.chain_cons] at hpb
    rw [List.foldl_cons, mdStep_eq_of_le p b hpb.1]
    exact ih b hpb.2

lemma calculateMaxDrawdown_of_chain (l : List ℝ) (hl : l.Chain' (· ≤ ·)) :
    calculateMaxDrawdown l = .num 0 := by
  cases l with
  | nil => rfl
  | cons v rest =>
    have hr : List.Chain (· ≤ ·) v rest := hl
    unfold calculateMaxDrawdown
    exact mdFold_chain (v :: rest) v (List.chain_cons.mpr ⟨le_refl v, hr⟩)

/-! ### Supporting lemmas about the standard-deviation helpers -/

lemma calculateStdDev_nil : calculateStdDev [] = 0 := by
  simp [calculateStdDev]

lemma calculateStdDev_replicate (c : ℝ) (n : ℕ) : calculateStdDev (List.replicate n c) = 0 := by
  rcases Nat.eq_zero_or_pos n with hn | hn
  · subst hn; simp [calculateStdDev]
  · have hne : (n : ℝ) ≠ 0 := Nat.cast_ne_zero.mpr hn.ne'
    unfold calculateStdDev
    rw [if_neg (by simp; omega)]
    simp only [List.length_replicate, List.sum_replicate, nsmul_eq_mul,
      mul_div_cancel_left₀ c hne, sub_self, List.map_replicate]
    norm_num [Real.sqrt_zero]

lemma calculateStdDev_two : calculateStdDev [0, 2] = 1 := by
  unfold calculateStdDev
  norm_num

lemma calculateStdDev_nonneg (arr : List ℝ) : 0 ≤ calculateStdDev arr := by
  unfold calculateStdDev
  split_ifs
  · exact le_refl 0
  · exact Real.sqrt_nonneg _

lemma calculateStdDev_sq (arr : List ℝ) :
    calculateStdDev arr ^ 2 * arr.length
      = (arr.map fun x => (x - arr.sum / arr.length) ^ 2).sum := by
  unfold calculateStdDev
  split_ifs with h
  · rw [List.length_eq_zero] at h
    subst h
    simp
  · have hS : 0 ≤ (arr.map fun x => (x - arr.sum / arr.length) ^ 2).sum := by
      refine List.sum_nonneg ?_
      intro x hx
      obtain ⟨y, _, rfl⟩ := List.mem_map.mp hx
      positivity
    have hlen : ((arr.length : ℝ)) ≠ 0 := Nat.cast_ne_zero.mpr h
    rw [Real.sq_sqrt (div_nonneg hS (Nat.cast_nonneg _))]
    exact div_mul_cancel₀ _ hlen

lemma jsAdd_foldl_num (l : List ℝ) : ∀ x : ℝ,
    (l.map JSNum.num).foldl JSNum.add (.num x) = .num (x + l.sum) := by
  induction l with
  | nil => intro x; simp
  | cons a t ih =>
    intro x
    rw [List.map_cons, List.foldl_cons]
    have : JSNum.add (.num x) (.num a) = .num (x + a) := rfl
    rw [this, ih, List.sum_cons]
    congr 1
    ring

/-- The shared-utility `calculateVolatility` has no empty-input guard: on an
empty array it divides `0 / 0` twice and returns NaN, unlike
`calculateStdDev`, which returns 0. -/
lemma calculateVolatility_nil : calculateVolatility [] = .nan := by
  simp [calculateVolatility, JSNum.div, JSNum.sqrt]

/-- On every nonempty input the two standard-deviation helpers agree. -/
lemma calculateVolatility_eq_stdDev (arr : List ℝ) (h : arr ≠ []) :
    calculateVolatility arr = .num (calculateStdDev arr) := by
  have hlen0 : arr.length ≠ 0 := by simpa [List.length_eq_zero] using h
  have hlenR : ((arr.length : ℝ)) ≠ 0 := Nat.cast_ne_zero.mpr hlen0
  have hmean : JSNum.div (.num arr.sum) (.num arr.length) = .num (arr.sum / arr.length) := by
    simp [JSNum.div, hlenR]
  have hmap : (arr.map fun r => JSNum.sq (JSNum.sub (.num r) (.num (arr.sum / arr.length))))
      = (arr.map fun r => (r - arr.sum / arr.length) ^ 2).map JSNum.num := by
    rw [List.map_map]
    rfl
  have hS : 0 ≤ (arr.map fun x => (x - arr.sum / arr.length) ^ 2).sum := by
    refine List.sum_nonneg ?_
    intro x hx
    obtain ⟨y, _, rfl⟩ := List.mem_map.mp hx
    positivity
  simp only [calculateVolatility]
  rw [hmean, hmap, jsAdd_foldl_num, zero_add]
  have hvar : JSNum.div (.num (arr.map fun x => (x - arr.sum / arr.length) ^ 2).sum)
      (.num arr.length)
      = .num ((arr.map fun x => (x - arr.sum / arr.length) ^ 2).sum / arr.length) := by
    simp [JSNum.div, hlenR]
  rw [hvar]
  have hnn : ¬ ((arr.map fun x => (x - arr.sum / arr.length) ^ 2).sum / (arr.length : ℝ) < 0) :=
    not_lt.mpr (div_nonneg hS (Nat.cast_nonneg _))
  rw [JSNum.sqrt, if_neg hnn]
  unfold calculateStdDev
  rw [if_neg hlen0]

set_option maxHeartbeats 1000000 in
/-- Closed-form evaluation of the spec's concrete 2014 scenario: the exact
trajectory of `simulatePortfolio(1000000, 100, 0, 0, 3, 2014)`. -/
lemma sim2014_eval :
    (simulatePortfolio 1000000 100 0 0 3 2014).returns = [13.7, 1.4, 12] ∧
    (simulatePortfolio 1000000 100 0 0 3 2014).values = [1137000, 1152918, 1291268.16] ∧
    (simulatePortfolio 1000000 100 0 0 3 2014).totalReturn = .num 29.126816 := by
  have hr : List.range 3 = [0, 1, 2] := rfl
  norm_num [simulatePortfolio, hr, simStep, weightedReturn, stockRet, bondRet, btcRet,
    stocksTable, bondsTable, bitcoinTable, JSNum.div, JSNum.mul, JSNum.ltP]

/-! ### The claims -/

/-- Claim C1, counterexample: the values sequence claimed by the spec for
`simulate(1000000, 100, 0, 0, 3, 2014)` is wrong.  The code yields
`1137000 * 1.014 = 1152918` for the second year, but the spec claims
`1153018` — off by exactly 100, far beyond any floating rounding. -/
theorem simulate_scenario_2014_claim_false :
    (simulatePortfolio 1000000 100 0 0 3 2014).values ≠ [1137000, 1153018, 1291380.16] ∧
    (1153018 : ℝ) - 1152918 = 100 := by
  refine ⟨?_, by norm_num⟩
  rw [sim2014_eval.2.1]
  intro hEq
  rw [List.cons.injEq, List.cons.injEq] at hEq
  have h2 := hEq.2.1
  norm_num at h2

/-- Claim C1, amended: `simulate(1000000, 100, 0, 0, 3, 2014)` produces the
returns sequence `[13.7, 1.4, 12.0]`, the values sequence
`[1137000, 1152918, 1291268.16]` (exact in real arithmetic), and
`totalReturn = 29.126816`, i.e. approximately 29.13 percent. -/
theorem simulate_scenario_2014_exact :
    (simulatePortfolio 1000000 100 0 0 3 2014).returns = [13.7, 1.4, 12] ∧
    (simulatePortfolio 1000000 100 0 0 3 2014).values = [1137000, 1152918, 1291268.16] ∧
    (simulatePortfolio 1000000 100 0 0 3 2014).totalReturn = .num 29.126816 :=
  sim2014_eval

/-- Claim C2 is wrong about the code: for every allocation mix, years count
and start year, when `initialValue` is zero the running value stays zero, so
the unguarded `((value - initialValue) / initialValue) * 100` evaluates
`0 / 0` and `totalReturn` is NaN — not the zero the spec defines. -/
theorem totalReturn_zero_initial_is_nan (e b c : ℝ) (n : ℕ) (sy : ℤ) :
    (simulatePortfolio 0 e b c n sy).totalReturn = .nan := by
  obtain ⟨hv, hp, hm⟩ := simFold_zero_initial e b c sy n
  simp only [simulatePortfolio]
  rw [hv]
  norm_num [JSNum.div, JSNum.mul]

/-- Claim C3: for every allocation mix and every start year strictly greater
than 2024 (the latest tabulated year), each per-asset lookup falls back to
the 2024 table entry, and every yearly weighted return of the simulation
equals the weighted return computed from the 2024 entries. -/
theorem lookup_beyond_table_uses_2024 (y : ℤ) (hy : 2024 < y) (X e b c : ℝ) (n : ℕ) :
    stockRet y = stockRet 2024 ∧ bondRet y = bondRet 2024 ∧ btcRet y = btcRet 2024 ∧
    (simulatePortfolio X e b c n y).returns = List.replicate n (weightedReturn e b c 2024) := by
  refine ⟨stockRet_gt y hy, bondRet_gt y hy, btcRet_gt y hy, ?_⟩
  have hret : (simulatePortfolio X e b c n y).returns
      = (List.range n).map (fun i : ℕ => weightedReturn e b c (y + (i : ℤ))) := by
    simp only [simulatePortfolio]
    rw [simFold_returnsList]
    simp
  rw [hret]
  refine List.eq_replicate_iff.mpr ⟨by simp, ?_⟩
  intro r hr
  obtain ⟨i, hi, rfl⟩ := List.mem_map.mp hr
  have h2024 : 2024 < y + (i : ℤ) := by omega
  unfold weightedReturn
  rw [stockRet_gt _ h2024, bondRet_gt _ h2024, btcRet_gt _ h2024]

/-- Claim C3, witness: the spec's own instance `simulate(X, e, b, c, 1, 2030)`
uses the 2024 entries. -/
theorem lookup_beyond_table_uses_2024_witness :
    (2024 : ℤ) < 2030 ∧
      (stockRet 2030 = stockRet 2024 ∧ bondRet 2030 = bondRet 2024 ∧
       btcRet 2030 = btcRet 2024 ∧
       (simulatePortfolio 1000000 60 30 10 1 2030).returns
         = List.replicate 1 (weightedReturn 60 30 10 2024)) :=
  ⟨by norm_num, lookup_beyond_table_uses_2024 2030 (by norm_num) 1000000 60 30 10 1⟩

/-- Claim C4: for every initial value, allocation mix and start year,
simulating zero years returns empty year/value/return sequences,
`finalValue = initialValue`, and `cagr = volatility = maxDrawdown = sharpe
= 0`, with every field well defined. -/
theorem simulate_zero_years (init e b c : ℝ) (sy : ℤ) :
    (simulatePortfolio init e b c 0 sy).years = [] ∧
    (simulatePortfolio init e b c 0 sy).values = [] ∧
    (simulatePortfolio init e b c 0 sy).returns = [] ∧
    (simulatePortfolio init e b c 0 sy).finalValue = init ∧
    (simulatePortfolio init e b c 0 sy).cagr = .num 0 ∧
    (simulatePortfolio init e b c 0 sy).volatility = 0 ∧
    (simulatePortfolio init e b c 0 sy).maxDrawdown = .num 0 ∧
    (simulatePortfolio init e b c 0 sy).sharpe = .num 0 := by
  norm_num [simulatePortfolio, calculateStdDev]

/-- Claim C5: for every allocation mix, years count and start year, with
`initialValue = 0` the running peak is zero in every iteration; the per-year
drawdown `0 / 0` is NaN, every `drawdown > maxDrawdown` comparison is false
— the same effect as treating the drawdown as zero — and the `maxDrawdown`
field of the result is exactly 0, with no failure. -/
theorem maxDrawdown_zero_initial (e b c : ℝ) (n : ℕ) (sy : ℤ) :
    (simulatePortfolio 0 e b c n sy).maxDrawdown = .num 0 := by
  obtain ⟨hv, hp, hm⟩ := simFold_zero_initial e b c sy n
  simp only [simulatePortfolio]
  exact hm

/-- Claim C6: for every initial value, years count and start year, the
all-zero allocation mix produces a returns sequence of exact zeros and a
final value exactly equal to the initial value. -/
theorem simulate_zero_allocation (init : ℝ) (n : ℕ) (sy : ℤ) :
    (simulatePortfolio init 0 0 0 n sy).returns = List.replicate n 0 ∧
    (simulatePortfolio init 0 0 0 n sy).finalValue = init := by
  constructor
  · simp only [simulatePortfolio]
    rw [simFold_returnsList]
    simp [weightedReturn_zero_alloc]
  · simp only [simulatePortfolio]
    exact simFold_value_of_zero_alloc sy n _

/-- Claim C7: the shared-utility `calculateMaxDrawdown` returns exactly 0 on
the empty sequence, on every single-element sequence, and on every
monotonically increasing (chain of `≤`) sequence, and returns exactly 50 on
`[100, 50, 100]`. -/
theorem calculateMaxDrawdown_spec (x : ℝ) (l : List ℝ) (hl : l.Chain' (· ≤ ·)) :
    calculateMaxDrawdown [] = .num 0 ∧
    calculateMaxDrawdown [x] = .num 0 ∧
    calculateMaxDrawdown l = .num 0 ∧
    calculateMaxDrawdown [100, 50, 100] = .num 50 := by
  refine ⟨rfl, ?_, calculateMaxDrawdown_of_chain l hl, ?_⟩
  · exact calculateMaxDrawdown_of_chain [x] (List.chain'_singleton x)
  · norm_num [calculateMaxDrawdown, mdStep, JSNum.div, JSNum.mul, JSNum.ltP]

/-- Claim C7, witness: the drawdown facts at the concrete inputs `5`,
`[1, 2]` and `[100, 50, 100]`. -/
theorem calculateMaxDrawdown_spec_witness :
    List.Chain' (· ≤ ·) [(1 : ℝ), 2] ∧
      (calculateMaxDrawdown [] = .num 0 ∧
       calculateMaxDrawdown [(5 : ℝ)] = .num 0 ∧
       calculateMaxDrawdown [(1 : ℝ), 2] = .num 0 ∧
       calculateMaxDrawdown [100, 50, 100] = .num 50) :=
  ⟨by norm_num [List.chain'_cons, List.chain'_singleton],
   calculateMaxDrawdown_spec 5 [1, 2] (by norm_num [List.chain'_cons, List.chain'_singleton])⟩

/-- Claim C8: `calculateStdDev` returns 0 on the empty sequence and on every
constant sequence, returns 1 on `[0, 2]` (so it divides by N: the N−1 sample
deviation would be the square root of 2 there), and for every input its
square times the length equals the sum of squared deviations from the mean —
the population-variance characterisation. -/
theorem calculateStdDev_spec :
    calculateStdDev [] = 0 ∧
    (∀ (c : ℝ) (n : ℕ), calculateStdDev (List.replicate n c) = 0) ∧
    calculateStdDev [0, 2] = 1 ∧
    (∀ arr : List ℝ, 0 ≤ calculateStdDev arr ∧
      calculateStdDev arr ^ 2 * arr.length
        = (arr.map fun x => (x - arr.sum / arr.length) ^ 2).sum) :=
  ⟨calculateStdDev_nil, fun c n => calculateStdDev_replicate c n, calculateStdDev_two,
   fun arr => ⟨calculateStdDev_nonneg arr, calculateStdDev_sq arr⟩⟩

/-- Claim C9: `simulatePortfolio` is deterministic — two invocations with
identical arguments yield identical results.  In this embedding the source
is a pure function: it reads only its parameters and the static return
table, and writes only its own locals, so it is modelled as a function of
its arguments and determinism is definitional. -/
theorem simulatePortfolio_deterministic (init e b c : ℝ) (n : ℕ) (sy : ℤ) :
    simulatePortfolio init e b c n sy = simulatePortfolio init e b c n sy := rfl

/-- Claim C10: the per-year returns sequence does not depend on the initial
value: any two initial values with the same allocation mix, years count and
start year produce identical returns sequences. -/
theorem returns_independent_of_initialValue (initA initB e b c : ℝ) (n : ℕ) (sy : ℤ) :
    (simulatePortfolio initA e b c n sy).returns
      = (simulatePortfolio initB e b c n sy).returns := by
  simp only [simulatePortfolio]
  rw [simFold_returnsList, simFold_returnsList]
